import Mathlib

/-!
Shallow embedding of `src/server.js` of the menupedia repository.

The file `src/server.js` contains two complete server variants:
* a document-collection variant backed by mongoose (`Meal` / `Heading`
  models), and
* a flat-file variant backed by a single JSON document `data.json`
  (`readData` / `writeData`).

Modelling choices, each justified against the source:
* A meal record is a JSON object; the fields that appear in the mongoose
  schema (`name`, `description`, `photo`, `halfServe`, `heading`) are
  modelled as `Option` fields of `MealDoc`; `none` models an absent key.
* The flat data file is modelled as `Option Document`: `some d` means the
  file exists and parses as JSON document `d`; `none` means the file is
  missing, unreadable or invalid JSON (`readFileSync`/`JSON.parse` throws).
* Disk write success is an explicit boolean parameter `writeOk`
  (`fs.writeFileSync` succeeding or throwing inside `writeData`).
* The uploads directory is modelled as the list of paths of existing
  files; `fs.existsSync p` is list membership, `fs.unlinkSync` removes.
* `upload.single('photo')` (multer) runs before each handler body: the
  `fileFilter` accepts exactly mimetypes starting with `image/`, and
  `limits.fileSize = 5 * 1024 * 1024` rejects strictly larger contents.
  On acceptance the disk storage engine has already written the file; on
  rejection no file is retained and the error reaches Express, which has
  no error-handling middleware registered in the source, so the default
  error handler answers with status 500 (a plain `Error` carries no
  `status`/`statusCode` property).
* `JSON.parse(req.body.meal)` is modelled as an already-parsed `MealDoc`
  argument; the parse-failure path (status 400) is orthogonal to every
  claim treated here.
* The mongoose calls are modelled over an association list
  `List (String × MealDoc)` from object id to record: `findById` is
  lookup, `save` of a fetched document replaces its entry, `deleteOne`
  removes it, `new Meal(...).save()` appends under a fresh id.  The meal
  schema declares no `required` field (unlike `headingSchema`), so saving
  a meal never fails mongoose validation.
* `Meal.findById(id)` first casts the raw `:id` string to an ObjectId: a
  string that is neither exactly 12 characters long nor 24 hexadecimal
  characters fails the cast, the query rejects with a CastError, and the
  handler's catch answers 400.  `Mongo.findByIdCast` embeds the cast
  followed by the lookup; `Mongo.findById` models the post-cast lookup
  alone, and `Mongo.putMeal` / `Mongo.deleteMeal` the handlers on the
  domain of ids that cast (`Mongo.putMealFull` / `Mongo.deleteMealFull`
  include the CastError path).
* JavaScript truthiness of a string field (`if (meal.photo)`,
  `!meal[field]`) holds exactly for a present, non-empty string.
* `parseInt(s)` with no radix is modelled by `jsParseInt`: skip leading
  whitespace, optional sign, then a `0x`/`0X` hexadecimal or decimal
  digit run; `none` models `NaN`.
-/

/-- A meal record: the JSON object stored for a meal. `none` = absent key. -/
structure MealDoc where
  name : Option String
  description : Option String
  photo : Option String
  halfServe : Option Bool
  heading : Option String
deriving Repr, DecidableEq, Inhabited

/-- The flat-file JSON document `{ meals: [...], headings: [...] }`. -/
structure Document where
  meals : List MealDoc
  headings : List String
deriving Repr, DecidableEq, Inhabited

/-- The initial document `{ meals: [], headings: [] }`. -/
def emptyDoc : Document := { meals := [], headings := [] }

/-- JavaScript truthiness of an optional string field. -/
def strTruthy : Option String → Bool
  | some s => s != ""
  | none => false

/-- Embeds `writeData(data)` (src/server.js): writes the JSON document and
returns `true`, or returns `false` when `fs.writeFileSync` throws, leaving
the file as it was. -/
def writeData (writeOk : Bool) (file : Option Document) (d : Document) :
    Bool × Option Document :=
  if writeOk then (true, some d) else (false, file)

/-- Embeds `readData()` (src/server.js): returns the parsed document; on a
read/parse failure it writes the initial `{meals: [], headings: []}`
document (ignoring whether that write succeeds) and returns it. -/
def readData (writeOk : Bool) (file : Option Document) :
    Document × Option Document :=
  match file with
  | some d => (d, some d)
  | none =>
    match writeData writeOk none emptyDoc with
    | (_, file1) => (emptyDoc, file1)

/-- Embeds `validateMeal(meal)` (src/server.js): throws
`Missing required field: <field>` for the first falsy field among
`name`, `description`.  NOTE: the source defines this function in both
variants but never calls it. -/
def validateMeal (meal : MealDoc) : Except String Bool :=
  if strTruthy meal.name = false then Except.error "Missing required field: name"
  else if strTruthy meal.description = false then
    Except.error "Missing required field: description"
  else Except.ok true

/-- An incoming multipart file as multer sees it. -/
structure UploadFile where
  mimetype : String
  size : Nat
  filename : String
deriving Repr, DecidableEq

/-- The configured multer size ceiling, `5 * 1024 * 1024` bytes. -/
def sizeLimit : Nat := 5 * 1024 * 1024

/-- Character-list implementation of `String.prototype.startsWith`: does
the first list start with the second? -/
def charsStartWith : List Char → List Char → Bool
  | _, [] => true
  | [], _ :: _ => false
  | c :: cs, p :: ps => c == p && charsStartWith cs ps

/-- Embeds the multer `fileFilter`: accept iff the mimetype starts with
`image/` (`file.mimetype.startsWith('image/')`). -/
def fileFilterAccepts (f : UploadFile) : Bool :=
  charsStartWith f.mimetype.toList "image/".toList

/-- Embeds `upload.single('photo')`: no file passes through; an accepted
file has already been written to the uploads directory by the disk
storage engine; a rejected file (bad mimetype, or content over the size
ceiling) yields an error and leaves no file behind (multer removes any
partial write on error). -/
def multerSingle (upload : Option UploadFile) (fs : List String) :
    Except String (Option String × List String) :=
  match upload with
  | none => Except.ok (none, fs)
  | some f =>
    if fileFilterAccepts f = false then Except.error "Only image files are allowed!"
    else if sizeLimit < f.size then Except.error "File too large"
    else Except.ok (some f.filename, fs ++ ["/uploads/" ++ f.filename])

/-- Embeds the guarded unlink idiom of the source:
`if (fs.existsSync(p)) { fs.unlinkSync(p); }` — removes the file when it
exists, is a no-op (never an error) otherwise. -/
def guardedUnlink (fs : List String) (p : String) : List String :=
  if p ∈ fs then fs.erase p else fs

/-- Embeds the photo-removal step of the source:
`if (x.photo) { ... if (fs.existsSync(path)) fs.unlinkSync(path); }`. -/
def deleteOldPhoto (fs : List String) (photo : Option String) : List String :=
  match photo with
  | some p => if p == "" then fs else guardedUnlink fs p
  | none => fs

/-- Overwrite-or-retain of one field, the per-path effect of mongoose
`document.set(obj)`: a key present in `obj` overwrites, an absent key
leaves the stored value. -/
def updField {α : Type} (old new : Option α) : Option α :=
  match new with
  | some v => some v
  | none => old

/-- Embeds mongoose `meal.set(updatedMealData)` field by field. -/
def MealDoc.set (old upd : MealDoc) : MealDoc :=
  { name := updField old.name upd.name
    description := updField old.description upd.description
    photo := updField old.photo upd.photo
    halfServe := updField old.halfServe upd.halfServe
    heading := updField old.heading upd.heading }

/-- Embeds the lookup performed by `Meal.findById(id)` once the id has
cast to an ObjectId; `Mongo.findByIdCast` is the cast-inclusive
embedding. -/
def Mongo.findById (store : List (String × MealDoc)) (id : String) :
    Option MealDoc :=
  (store.find? (fun pr => pr.fst == id)).map Prod.snd

/-- Replacing the entry of `id` in the store, the effect of `meal.save()`
on a document fetched by `findById`. -/
def Mongo.replaceById (store : List (String × MealDoc)) (id : String)
    (m : MealDoc) : List (String × MealDoc) :=
  store.map (fun pr => if pr.fst == id then (pr.fst, m) else pr)

/-- Embeds `if (req.body.heading) mealData.heading = req.body.heading` of
the document-collection POST handler. -/
def Mongo.applyHeading (m : MealDoc) (h : Option String) : MealDoc :=
  match h with
  | some s => if s == "" then m else { m with heading := some s }
  | none => m

/-- Embeds `POST /api/meals` of the document-collection variant
(src/server.js lines 158-178): multer, then build the meal from the
parsed body, set `photo` to the stored upload path or `''`, optionally
set `heading`, and save.  No validation is performed (`validateMeal` is
never called; the meal schema has no `required` fields). Result:
(status, store, uploads directory). -/
def Mongo.postMeal (store : List (String × MealDoc)) (fs : List String)
    (newId : String) (upload : Option UploadFile) (body : MealDoc)
    (headingField : Option String) :
    Nat × List (String × MealDoc) × List String :=
  match multerSingle upload fs with
  | Except.error _ => (500, store, fs)
  | Except.ok (photoFile, fs1) =>
    match photoFile with
    | some fn =>
      (200, store ++ [(newId,
        Mongo.applyHeading { body with photo := some ("/uploads/" ++ fn) } headingField)], fs1)
    | none =>
      (200, store ++ [(newId,
        Mongo.applyHeading { body with photo := some "" } headingField)], fs1)

/-- Embeds `PUT /api/meals/:id` of the document-collection variant
(src/server.js lines 180-211): multer, `findById` (404 when absent);
with a new upload the old photo file is removed (guarded) and `photo`
set to the new path, otherwise `photo` is set to the stored value; then
`meal.set(updatedMealData)` and `save`. -/
def Mongo.putMeal (store : List (String × MealDoc)) (fs : List String)
    (id : String) (upload : Option UploadFile) (body : MealDoc) :
    Nat × List (String × MealDoc) × List String :=
  match multerSingle upload fs with
  | Except.error _ => (500, store, fs)
  | Except.ok (photoFile, fs1) =>
    match Mongo.findById store id with
    | none => (404, store, fs1)
    | some meal =>
      match photoFile with
      | some fn =>
        (200,
         Mongo.replaceById store id
           (MealDoc.set meal { body with photo := some ("/uploads/" ++ fn) }),
         deleteOldPhoto fs1 meal.photo)
      | none =>
        (200,
         Mongo.replaceById store id
           (MealDoc.set meal { body with photo := meal.photo }),
         fs1)

/-- Embeds `DELETE /api/meals/:id` of the document-collection variant
(src/server.js lines 213-233): `findById` (404 when absent), guarded
removal of the photo file, `meal.deleteOne()`. -/
def Mongo.deleteMeal (store : List (String × MealDoc)) (fs : List String)
    (id : String) : Nat × List (String × MealDoc) × List String :=
  match Mongo.findById store id with
  | none => (404, store, fs)
  | some meal =>
    (200, store.filter (fun pr => pr.fst != id), deleteOldPhoto fs meal.photo)

/-- Hexadecimal character test used by the ObjectId format check. -/
def isHexDigit (c : Char) : Bool :=
  ('0' ≤ c && c ≤ '9') || ('a' ≤ c && c ≤ 'f') || ('A' ≤ c && c ≤ 'F')

/-- A string casts to a mongoose ObjectId iff it is exactly 12 characters
long (a 12-byte value) or a 24-character hexadecimal string; anything
else makes the query reject with a CastError. -/
def isValidObjectId (s : String) : Bool :=
  s.toList.length == 12 || (s.toList.length == 24 && s.toList.all isHexDigit)

/-- Embeds `Meal.findById(id)` including the ObjectId cast: a malformed
id rejects with a CastError (`Except.error`); a well-formed id yields
the matching record or `none`. -/
def Mongo.findByIdCast (store : List (String × MealDoc)) (id : String) :
    Except Unit (Option MealDoc) :=
  if isValidObjectId id = false then Except.error ()
  else Except.ok (Mongo.findById store id)

/-- Embeds `PUT /api/meals/:id` of the document-collection variant
(src/server.js lines 180-211) including the ObjectId cast of
`Meal.findById`: a malformed `:id` makes the query reject with a
CastError, which the handler's catch answers with 400; a null result
answers 404; otherwise the behavior of `Mongo.putMeal`. -/
def Mongo.putMealFull (store : List (String × MealDoc)) (fs : List String)
    (id : String) (upload : Option UploadFile) (body : MealDoc) :
    Nat × List (String × MealDoc) × List String :=
  match multerSingle upload fs with
  | Except.error _ => (500, store, fs)
  | Except.ok (photoFile, fs1) =>
    match Mongo.findByIdCast store id with
    | Except.error _ => (400, store, fs1)
    | Except.ok none => (404, store, fs1)
    | Except.ok (some meal) =>
      match photoFile with
      | some fn =>
        (200,
         Mongo.replaceById store id
           (MealDoc.set meal { body with photo := some ("/uploads/" ++ fn) }),
         deleteOldPhoto fs1 meal.photo)
      | none =>
        (200,
         Mongo.replaceById store id
           (MealDoc.set meal { body with photo := meal.photo }),
         fs1)

/-- Embeds `DELETE /api/meals/:id` of the document-collection variant
(src/server.js lines 213-233) including the ObjectId cast of
`Meal.findById`: a malformed `:id` rejects with a CastError and the
catch answers 400; a null result answers 404; otherwise the behavior of
`Mongo.deleteMeal`. -/
def Mongo.deleteMealFull (store : List (String × MealDoc)) (fs : List String)
    (id : String) : Nat × List (String × MealDoc) × List String :=
  match Mongo.findByIdCast store id with
  | Except.error _ => (400, store, fs)
  | Except.ok none => (404, store, fs)
  | Except.ok (some meal) =>
    (200, store.filter (fun pr => pr.fst != id), deleteOldPhoto fs meal.photo)

/-- State of the document-collection backend: both collections. -/
structure MongoState where
  meals : List (String × MealDoc)
  headings : List (String × String)
deriving Repr, DecidableEq

/-- Embeds `DELETE /api/headings/:id` of the document-collection variant
(src/server.js lines 252-263): `Heading.findByIdAndDelete` — 404 when no
heading has the id, otherwise remove it.  The handler performs no
operation on the `Meal` collection. -/
def Mongo.deleteHeading (s : MongoState) (id : String) : Nat × MongoState :=
  match s.headings.find? (fun pr => pr.fst == id) with
  | none => (404, s)
  | some _ => (200, { s with headings := s.headings.filter (fun pr => pr.fst != id) })

/-- Decimal digit value. -/
def digitVal (c : Char) : Option Nat :=
  if '0' ≤ c ∧ c ≤ '9' then some (c.toNat - '0'.toNat) else none

/-- Hexadecimal digit value. -/
def hexDigitVal (c : Char) : Option Nat :=
  if '0' ≤ c ∧ c ≤ '9' then some (c.toNat - '0'.toNat)
  else if 'a' ≤ c ∧ c ≤ 'f' then some (c.toNat - 'a'.toNat + 10)
  else if 'A' ≤ c ∧ c ≤ 'F' then some (c.toNat - 'A'.toNat + 10)
  else none

/-- Accumulate the longest run of digits, stopping at the first
non-digit (as `parseInt` does). -/
def parseDigitsFrom (dv : Char → Option Nat) (base : Nat) :
    List Char → Nat → Nat
  | [], acc => acc
  | c :: cs, acc =>
    match dv c with
    | some d => parseDigitsFrom dv base cs (base * acc + d)
    | none => acc

/-- Parse a non-empty digit run; `none` when the first character is not a
digit (`parseInt` yields `NaN`). -/
def parseDigits (dv : Char → Option Nat) (base : Nat) :
    List Char → Option Nat
  | [] => none
  | c :: cs =>
    match dv c with
    | some d => some (parseDigitsFrom dv base cs d)
    | none => none

/-- JavaScript whitespace relevant to `parseInt` (common cases). -/
def isJsSpace (c : Char) : Bool :=
  c == ' ' || c == '\t' || c == '\n' || c == '\r'

/-- Signed digit-run parse after the sign character has been removed. -/
def jsParseIntCore (sign : Int) (cs : List Char) : Option Int :=
  match cs with
  | '0' :: 'x' :: rest => (parseDigits hexDigitVal 16 rest).map (fun n => sign * (n : Int))
  | '0' :: 'X' :: rest => (parseDigits hexDigitVal 16 rest).map (fun n => sign * (n : Int))
  | _ => (parseDigits digitVal 10 cs).map (fun n => sign * (n : Int))

/-- Embeds JavaScript `parseInt(s)` with no radix argument: skip leading
whitespace, optional sign, then a hexadecimal (`0x`) or decimal digit
run; `none` models `NaN`. -/
def jsParseInt (s : String) : Option Int :=
  match s.toList.dropWhile isJsSpace with
  | '-' :: rest => jsParseIntCore (-1) rest
  | '+' :: rest => jsParseIntCore 1 rest
  | cs => jsParseIntCore 1 cs

/-- Embeds the index check of the flat-file `:id` handlers:
`const mealIndex = parseInt(req.params.id)` followed by
`mealIndex >= 0 && mealIndex < data.meals.length` (both comparisons are
false for `NaN`). -/
def FlatFile.resolveIndex (idStr : String) (len : Nat) : Option Nat :=
  match jsParseInt idStr with
  | none => none
  | some n => if 0 ≤ n ∧ n < (len : Int) then some n.toNat else none

/-- Common tail of the flat-file POST handler: push the meal, write the
document; a failed write throws `Failed to save data`, and the handler's
catch answers 400. -/
def FlatFile.finishPost (writeOk : Bool) (file1 : Option Document)
    (fs1 : List String) (data : Document) (meal : MealDoc) :
    Nat × Option Document × List String :=
  match writeData writeOk file1 { data with meals := data.meals ++ [meal] } with
  | (true, file2) => (200, file2, fs1)
  | (false, file2) => (400, file2, fs1)

/-- Embeds `POST /api/meals` of the flat-file variant (src/server.js lines
393-418): multer, `readData`, set `photo` to the stored upload path or
`''`, push, `writeData`.  No validation is performed (`validateMeal` is
never called). -/
def FlatFile.postMeal (writeOk : Bool) (file : Option Document)
    (fs : List String) (upload : Option UploadFile) (body : MealDoc) :
    Nat × Option Document × List String :=
  match multerSingle upload fs with
  | Except.error _ => (500, file, fs)
  | Except.ok (photoFile, fs1) =>
    match readData writeOk file with
    | (data, file1) =>
      match photoFile with
      | some fn =>
        FlatFile.finishPost writeOk file1 fs1 data
          { body with photo := some ("/uploads/" ++ fn) }
      | none =>
        FlatFile.finishPost writeOk file1 fs1 data
          { body with photo := some "" }

/-- Common tail of the flat-file PUT handler: store the updated meal at
the index, write the document; a failed write throws and answers 400. -/
def FlatFile.finishPut (writeOk : Bool) (file1 : Option Document)
    (fs2 : List String) (data : Document) (i : Nat) (updatedMeal : MealDoc) :
    Nat × Option Document × List String :=
  match writeData writeOk file1 { data with meals := data.meals.set i updatedMeal } with
  | (true, file2) => (200, file2, fs2)
  | (false, file2) => (400, file2, fs2)

/-- Embeds `PUT /api/meals/:id` of the flat-file variant (src/server.js
lines 420-456): multer, `readData`, `parseInt` index check (404 when out
of range or `NaN`); with a new upload the old photo file is removed
(guarded) and `photo` set to the new path, otherwise `photo` is set to
the stored value; then `data.meals[mealIndex] = updatedMeal` (wholesale
replacement) and `writeData`. -/
def FlatFile.putMeal (writeOk : Bool) (file : Option Document)
    (fs : List String) (idStr : String) (upload : Option UploadFile)
    (body : MealDoc) : Nat × Option Document × List String :=
  match multerSingle upload fs with
  | Except.error _ => (500, file, fs)
  | Except.ok (photoFile, fs1) =>
    match readData writeOk file with
    | (data, file1) =>
      match FlatFile.resolveIndex idStr data.meals.length with
      | none => (404, file1, fs1)
      | some i =>
        match photoFile with
        | some fn =>
          FlatFile.finishPut writeOk file1
            (deleteOldPhoto fs1 (data.meals.getD i default).photo) data i
            { body with photo := some ("/uploads/" ++ fn) }
        | none =>
          FlatFile.finishPut writeOk file1 fs1 data i
            { body with photo := (data.meals.getD i default).photo }

/-- Embeds `DELETE /api/meals/:id` of the flat-file variant (src/server.js
lines 458-488): `readData`, `parseInt` index check (404 when out of range
or `NaN`), guarded removal of the photo file, `splice(mealIndex, 1)`,
`writeData` (a failed write throws and answers 400). -/
def FlatFile.deleteMeal (writeOk : Bool) (file : Option Document)
    (fs : List String) (idStr : String) :
    Nat × Option Document × List String :=
  match readData writeOk file with
  | (data, file1) =>
    match FlatFile.resolveIndex idStr data.meals.length with
    | none => (404, file1, fs)
    | some i =>
      match writeData writeOk file1 { data with meals := data.meals.eraseIdx i } with
      | (true, file2) => (200, file2, deleteOldPhoto fs (data.meals.getD i default).photo)
      | (false, file2) => (400, file2, deleteOldPhoto fs (data.meals.getD i default).photo)

/-- Embeds `GET /api/data` of the flat-file variant (src/server.js lines
383-391): `readData` and answer 200 with the document. -/
def FlatFile.getData (writeOk : Bool) (file : Option Document) :
    Nat × Document × Option Document :=
  match readData writeOk file with
  | (d, file1) => (200, d, file1)

/-!
Reduction lemmas for the embedded primitives, shared by the claim proofs.
-/

/-- Reduction: `multerSingle` with no file passes through. -/
theorem multerSingle_none (fs : List String) :
    multerSingle none fs = Except.ok (none, fs) := rfl

/-- Reduction: `readData` on a readable, well-formed file. -/
theorem readData_some (writeOk : Bool) (d : Document) :
    readData writeOk (some d) = (d, some d) := rfl

/-- Reduction: `writeData` on a writable disk. -/
theorem writeData_true (file : Option Document) (d : Document) :
    writeData true file d = (true, some d) := rfl

/-- Reduction: `writeData` on a failing disk. -/
theorem writeData_false (file : Option Document) (d : Document) :
    writeData false file d = (false, file) := rfl

/-- No index resolves against an empty meals array: for any `:id` string,
`parseInt` either yields `NaN` or an integer, and no integer satisfies
`0 <= n && n < 0`. -/
theorem FlatFile.resolveIndex_zero (idStr : String) :
    FlatFile.resolveIndex idStr 0 = none := by
  unfold FlatFile.resolveIndex
  cases jsParseInt idStr with
  | none => rfl
  | some n =>
    have h : ¬ (0 ≤ n ∧ n < ((0 : Nat) : Int)) := by
      intro hc
      omega
    simp [h]

/-- The document-collection `PUT /api/meals/:id` on an existing record
with no upload: answers 200 and stores the mongoose merge of the stored
record with the supplied fields, `photo` forced to the stored value. -/
theorem mongoPutMealNoUpload (store : List (String × MealDoc))
    (fs : List String) (id : String) (body meal : MealDoc)
    (hfind : Mongo.findById store id = some meal) :
    Mongo.putMeal store fs id none body
      = (200, Mongo.replaceById store id
          (MealDoc.set meal { body with photo := meal.photo }), fs) := by
  unfold Mongo.putMeal
  rw [multerSingle_none]
  simp [hfind]

/-- The flat-file `PUT /api/meals/:id` on a readable file, an in-range
index and no upload: answers 200 and stores the supplied fields wholesale
at the index, `photo` forced to the stored value. -/
theorem flatFilePutMealNoUpload (doc : Document) (fs : List String)
    (idStr : String) (i : Nat) (body : MealDoc)
    (hidx : FlatFile.resolveIndex idStr doc.meals.length = some i) :
    FlatFile.putMeal true (some doc) fs idStr none body
      = (200, some { doc with
              meals := doc.meals.set i
                ({ body with photo := (doc.meals.getD i default).photo }) },
         fs) := by
  unfold FlatFile.putMeal
  rw [multerSingle_none]
  simp [readData_some, hidx, FlatFile.finishPut, writeData_true]

/-!
Concrete fixtures used by counterexamples and witnesses.
-/

/-- Fixture: a meal body whose `name` is absent. -/
def noNameBody : MealDoc :=
  { name := none, description := some "Tomato soup", photo := none,
    halfServe := none, heading := none }

/-- Fixture: a fully valid meal body. -/
def soupBody : MealDoc :=
  { name := some "Soup", description := some "Tomato soup", photo := none,
    halfServe := none, heading := none }

/-- Fixture: a stored meal with every field populated. -/
def fullMeal : MealDoc :=
  { name := some "Soup", description := some "Tomato soup",
    photo := some "/uploads/a.jpg", halfServe := some true, heading := none }

/-- Fixture: an update body supplying only `name`. -/
def nameOnlyBody : MealDoc :=
  { name := some "Stew", description := none, photo := none,
    halfServe := none, heading := none }

/-- Fixture: a data file holding exactly one meal. -/
def oneMealDoc : Document := { meals := [fullMeal], headings := [] }

/-- Fixture: a non-image upload. -/
def textUpload : UploadFile :=
  { mimetype := "text/plain", size := 10, filename := "a.txt" }

/-- Fixture: an image upload one byte over the 5 MiB ceiling. -/
def bigUpload : UploadFile :=
  { mimetype := "image/png", size := 5 * 1024 * 1024 + 1, filename := "b.png" }

/-!
Claim theorems.
-/

/-- Claim C1: the claim says a create request lacking a non-empty `name`
or `description` fails with ValidationError (400) and persists nothing.
The code contradicts this: `validateMeal` implements exactly that check
(down to the `Missing required field: <field>` message) but is never
called by either POST handler, and the meal schema marks no field
`required`, so a meal without `name` is persisted and answered 200 in
both variants.  This theorem evaluates both handlers at the failing
input and evaluates the dead validator on the same body. -/
theorem c1_create_without_name_persists_anyway :
    validateMeal noNameBody = Except.error "Missing required field: name" ∧
    FlatFile.postMeal true (some emptyDoc) [] none noNameBody
      = (200,
         some { meals := [{ noNameBody with photo := some "" }], headings := [] },
         []) ∧
    Mongo.postMeal [] [] "id1" none noNameBody none
      = (200, [("id1", { noNameBody with photo := some "" })], []) := by
  refine ⟨rfl, rfl, rfl⟩

/-- Claim C2 counterexample: with a failing disk (`writeData` returns
`false`), the flat-file `POST /api/meals` and `DELETE /api/meals/:id`
answer 400 — not 500 as the claim states: the handlers throw
`Failed to save data` and their catch-all maps every error to 400. -/
theorem c2_counterexample_write_failure_gives_400 :
    (FlatFile.postMeal false (some emptyDoc) [] none soupBody).fst = 400 ∧
    (FlatFile.deleteMeal false (some oneMealDoc) [] "0").fst = 400 ∧
    (400 : Nat) ≠ 500 := by
  refine ⟨rfl, rfl, by decide⟩

/-- Claim C2 amended: when the flat-file store's `writeData` reports an
I/O failure, the API answers HTTP 400 (the handler throws
`Failed to save data` and the catch-all maps it to 400), for
`POST /api/meals` and for `DELETE /api/meals/:id` on a resolvable id. -/
theorem c2_amended_write_failure_gives_400 (file : Option Document)
    (fs : List String) (body : MealDoc) (idStr : String) (i : Nat)
    (hidx : FlatFile.resolveIndex idStr (readData false file).fst.meals.length
      = some i) :
    (FlatFile.postMeal false file fs none body).fst = 400 ∧
    (FlatFile.deleteMeal false file fs idStr).fst = 400 := by
  cases file with
  | some d =>
    rw [readData_some] at hidx
    constructor
    · unfold FlatFile.postMeal
      rw [multerSingle_none]
      simp [readData_some, FlatFile.finishPost, writeData_false]
    · unfold FlatFile.deleteMeal
      simp [readData_some, hidx, writeData_false]
  | none =>
    rw [show (readData false none).fst.meals.length = 0 from rfl,
      FlatFile.resolveIndex_zero] at hidx
    exact absurd hidx (by simp)

/-- Claim C2 amended, witness. -/
theorem c2_amended_write_failure_gives_400_witness :
    (FlatFile.postMeal false (some oneMealDoc) [] none soupBody).fst = 400 ∧
    (FlatFile.deleteMeal false (some oneMealDoc) [] "0").fst = 400 :=
  c2_amended_write_failure_gives_400 (some oneMealDoc) [] soupBody "0" 0 rfl

/-- Claim C8: deleting a heading in the document-collection variant
leaves the meal collection unchanged, whatever it contains (so also when
meals reference the deleted heading's id): the handler touches only the
`Heading` collection. -/
theorem c8_delete_heading_leaves_meals (s : MongoState) (id : String) :
    ((Mongo.deleteHeading s id).snd).meals = s.meals := by
  unfold Mongo.deleteHeading
  cases s.headings.find? (fun pr => pr.fst == id) with
  | none => rfl
  | some pr => rfl

/-- Claim C9: a read or parse failure of the backing data file makes
`readData` rewrite the file with the empty document and return it (the
returned document is empty even when that rewrite itself fails), a
readable file is passed through unchanged, and `GET /api/data` on a
corrupted store answers 200 with the empty collections. -/
theorem c9_read_failure_resets_store (writeOk : Bool) (d : Document) :
    readData true none = (emptyDoc, some emptyDoc) ∧
    (readData writeOk none).fst = emptyDoc ∧
    readData writeOk (some d) = (d, some d) ∧
    FlatFile.getData true none = (200, emptyDoc, some emptyDoc) := by
  cases writeOk with
  | true => exact ⟨rfl, rfl, rfl, rfl⟩
  | false => exact ⟨rfl, rfl, rfl, rfl⟩

/-- Claim C3 counterexample: in the flat-file variant, updating the one
stored meal (which has `description = "Tomato soup"` and
`halfServe = true`) with a body supplying only `name` succeeds with 200
but stores a record whose `description` is gone — unsupplied fields are
not retained, refuting the partial-update claim for this variant. -/
theorem c3_counterexample_flat_file_replaces :
    (FlatFile.putMeal true (some oneMealDoc) [] "0" none nameOnlyBody).fst
      = 200 ∧
    (FlatFile.putMeal true (some oneMealDoc) [] "0" none nameOnlyBody).snd.fst
      = some { meals := [{ nameOnlyBody with photo := some "/uploads/a.jpg" }],
               headings := [] } ∧
    ({ nameOnlyBody with photo := some "/uploads/a.jpg" } : MealDoc).description
      = none ∧
    fullMeal.description = some "Tomato soup" := by
  refine ⟨rfl, rfl, rfl, rfl⟩

/-- Claim C3 amended: partial-update semantics hold in the
document-collection variant — `meal.set` overwrites each supplied field
and retains each unsupplied one — while in the flat-file variant the
stored record is replaced wholesale by the supplied fields, so every
unsupplied field other than `photo` is dropped (`photo` alone is carried
over from the stored record when no upload is present). -/
theorem c3_amended_update_semantics
    (store : List (String × MealDoc)) (fs : List String) (id : String)
    (body meal : MealDoc) (hfind : Mongo.findById store id = some meal)
    (doc : Document) (fs2 : List String) (idStr : String) (i : Nat)
    (hidx : FlatFile.resolveIndex idStr doc.meals.length = some i) :
    (∀ (α : Type) (o : Option α) (v : α), updField o (some v) = some v) ∧
    (∀ (α : Type) (o : Option α), updField o none = o) ∧
    Mongo.putMeal store fs id none body
      = (200, Mongo.replaceById store id
          (MealDoc.set meal { body with photo := meal.photo }), fs) ∧
    FlatFile.putMeal true (some doc) fs2 idStr none body
      = (200, some { doc with
              meals := doc.meals.set i
                ({ body with photo := (doc.meals.getD i default).photo }) },
         fs2) := by
  refine ⟨fun α o v => rfl, fun α o => rfl, ?_, ?_⟩
  · exact mongoPutMealNoUpload store fs id body meal hfind
  · exact flatFilePutMealNoUpload doc fs2 idStr i body hidx

/-- Claim C3 amended, witness. -/
theorem c3_amended_update_semantics_witness :
    Mongo.putMeal [("m1", fullMeal)] [] "m1" none nameOnlyBody
      = (200, Mongo.replaceById [("m1", fullMeal)] "m1"
          (MealDoc.set fullMeal { nameOnlyBody with photo := fullMeal.photo }),
         []) :=
  (c3_amended_update_semantics [("m1", fullMeal)] [] "m1" nameOnlyBody fullMeal
    rfl oneMealDoc [] "0" 0 rfl).2.2.1

/-- Claim C4 counterexample: a non-image upload and an oversize image
upload are both answered with status 500, not 400 as the claim states:
the multer error propagates to the framework's default error handler
(the source registers no error-handling middleware). -/
theorem c4_counterexample_rejected_upload_gives_500 :
    (FlatFile.postMeal true (some emptyDoc) [] (some textUpload) soupBody).fst
      = 500 ∧
    (FlatFile.postMeal true (some emptyDoc) [] (some bigUpload) soupBody).fst
      = 500 ∧
    (Mongo.postMeal [] [] "id1" (some bigUpload) soupBody none).fst = 500 ∧
    (500 : Nat) ≠ 400 := by
  refine ⟨rfl, rfl, rfl, by decide⟩

/-- Claim C4 amended: an upload whose mimetype does not start with
`image/`, or whose content exceeds 5 MiB, is rejected before the route
handler runs in both variants — no asset file is retained and no meal
record is created — but the response status is 500 (the framework's
default error handler), not 400. -/
theorem c4_amended_rejected_upload (f : UploadFile)
    (hrej : fileFilterAccepts f = false ∨ sizeLimit < f.size)
    (writeOk : Bool) (file : Option Document) (fs : List String)
    (body : MealDoc) (store : List (String × MealDoc)) (newId : String)
    (headingField : Option String) :
    FlatFile.postMeal writeOk file fs (some f) body = (500, file, fs) ∧
    Mongo.postMeal store fs newId (some f) body headingField
      = (500, store, fs) := by
  have hm : ∃ msg, multerSingle (some f) fs = Except.error msg := by
    unfold multerSingle
    rcases hrej with h | h
    · exact ⟨"Only image files are allowed!", by simp [h]⟩
    · by_cases hf : fileFilterAccepts f = false
      · exact ⟨"Only image files are allowed!", by simp [hf]⟩
      · exact ⟨"File too large", by simp [hf, h]⟩
  obtain ⟨msg, hm⟩ := hm
  constructor
  · unfold FlatFile.postMeal
    rw [hm]
  · unfold Mongo.postMeal
    rw [hm]

/-- Claim C4 amended, witness. -/
theorem c4_amended_rejected_upload_witness :
    FlatFile.postMeal true (some emptyDoc) [] (some textUpload) soupBody
      = (500, some emptyDoc, []) ∧
    Mongo.postMeal [] [] "id1" (some textUpload) soupBody none
      = (500, [], []) :=
  c4_amended_rejected_upload textUpload (Or.inl rfl) true (some emptyDoc) []
    soupBody [] "id1" none

/-- Claim C5: updating an existing meal with no new upload preserves the
stored `photo` value exactly, in both variants: the handlers assign the
stored photo into the update object before applying it, so even a body
supplying `photo` cannot clear or change it.  The first and third
conjuncts exhibit the stored record of each variant and its photo; the
second and fourth identify those records inside the route results. -/
theorem c5_no_upload_preserves_photo
    (store : List (String × MealDoc)) (fs : List String) (id : String)
    (body meal : MealDoc) (hfind : Mongo.findById store id = some meal)
    (doc : Document) (fs2 : List String) (idStr : String) (i : Nat)
    (hidx : FlatFile.resolveIndex idStr doc.meals.length = some i) :
    (MealDoc.set meal { body with photo := meal.photo }).photo = meal.photo ∧
    Mongo.putMeal store fs id none body
      = (200, Mongo.replaceById store id
          (MealDoc.set meal { body with photo := meal.photo }), fs) ∧
    ({ body with photo := (doc.meals.getD i default).photo } : MealDoc).photo
      = (doc.meals.getD i default).photo ∧
    FlatFile.putMeal true (some doc) fs2 idStr none body
      = (200, some { doc with
              meals := doc.meals.set i
                ({ body with photo := (doc.meals.getD i default).photo }) },
         fs2) := by
  refine ⟨?_, mongoPutMealNoUpload store fs id body meal hfind, rfl,
    flatFilePutMealNoUpload doc fs2 idStr i body hidx⟩
  cases hph : meal.photo with
  | none => simp [MealDoc.set, updField, hph]
  | some p => simp [MealDoc.set, updField, hph]

/-- Claim C5, witness. -/
theorem c5_no_upload_preserves_photo_witness :
    (MealDoc.set fullMeal { nameOnlyBody with photo := fullMeal.photo }).photo
      = fullMeal.photo ∧
    Mongo.putMeal [("m1", fullMeal)] [] "m1" none nameOnlyBody
      = (200, Mongo.replaceById [("m1", fullMeal)] "m1"
          (MealDoc.set fullMeal { nameOnlyBody with photo := fullMeal.photo }),
         []) :=
  ⟨(c5_no_upload_preserves_photo [("m1", fullMeal)] [] "m1" nameOnlyBody
      fullMeal rfl oneMealDoc [] "0" 0 rfl).1,
   (c5_no_upload_preserves_photo [("m1", fullMeal)] [] "m1" nameOnlyBody
      fullMeal rfl oneMealDoc [] "0" 0 rfl).2.1⟩

/-- Claim C6 counterexample: `"zzz"` does not resolve to an existing
meal record, yet the document-collection PUT and DELETE answer 400, not
404: the malformed id fails the ObjectId cast, `findById` rejects with a
CastError, and the handlers' catch-all maps it to 400. -/
theorem c6_counterexample_malformed_id_400 :
    (Mongo.putMealFull [] [] "zzz" none soupBody).fst = 400 ∧
    (Mongo.deleteMealFull [] [] "zzz").fst = 400 ∧
    (400 : Nat) ≠ 404 := by
  refine ⟨rfl, rfl, by decide⟩

/-- Claim C6 amended: in the document-collection variant, an id that
casts to a valid ObjectId but matches no record makes PUT and DELETE
answer 404, while a malformed id (ObjectId CastError) makes them answer
400; in the flat-file variant, every `:id` whose `parseInt` value is
`NaN` or outside `[0, meals.length)` makes PUT and DELETE answer 404. -/
theorem c6_amended_unknown_id
    (store : List (String × MealDoc)) (fs : List String) (id : String)
    (hvalid : isValidObjectId id = true) (hfind : Mongo.findById store id = none)
    (body : MealDoc) (badId : String) (hbad : isValidObjectId badId = false)
    (writeOk : Bool) (file : Option Document) (fs2 : List String)
    (idStr : String)
    (hidx : FlatFile.resolveIndex idStr (readData writeOk file).fst.meals.length
      = none) :
    (Mongo.putMealFull store fs id none body).fst = 404 ∧
    (Mongo.deleteMealFull store fs id).fst = 404 ∧
    (Mongo.putMealFull store fs badId none body).fst = 400 ∧
    (Mongo.deleteMealFull store fs badId).fst = 400 ∧
    (FlatFile.putMeal writeOk file fs2 idStr none body).fst = 404 ∧
    (FlatFile.deleteMeal writeOk file fs2 idStr).fst = 404 := by
  refine ⟨?_, ?_, ?_, ?_, ?_, ?_⟩
  · unfold Mongo.putMealFull
    rw [multerSingle_none]
    unfold Mongo.findByIdCast
    simp [hvalid, hfind]
  · unfold Mongo.deleteMealFull Mongo.findByIdCast
    simp [hvalid, hfind]
  · unfold Mongo.putMealFull
    rw [multerSingle_none]
    unfold Mongo.findByIdCast
    simp [hbad]
  · unfold Mongo.deleteMealFull Mongo.findByIdCast
    simp [hbad]
  · unfold FlatFile.putMeal
    rw [multerSingle_none]
    rcases hr : readData writeOk file with ⟨data, file1⟩
    rw [hr] at hidx
    simp only [] at hidx
    simp [hidx]
  · unfold FlatFile.deleteMeal
    rcases hr : readData writeOk file with ⟨data, file1⟩
    rw [hr] at hidx
    simp only [] at hidx
    simp [hidx]

/-- Claim C6 amended, witness. -/
theorem c6_amended_unknown_id_witness :
    (Mongo.putMealFull [] [] "0123456789abcdef01234567" none soupBody).fst
      = 404 ∧
    (Mongo.deleteMealFull [] [] "0123456789abcdef01234567").fst = 404 ∧
    (Mongo.putMealFull [] [] "xyz" none soupBody).fst = 400 ∧
    (Mongo.deleteMealFull [] [] "xyz").fst = 400 ∧
    (FlatFile.putMeal true (some oneMealDoc) [] "abc" none soupBody).fst = 404 ∧
    (FlatFile.deleteMeal true (some oneMealDoc) [] "abc").fst = 404 :=
  c6_amended_unknown_id [] [] "0123456789abcdef01234567" rfl rfl soupBody
    "xyz" rfl true (some oneMealDoc) [] "abc" rfl

/-- Claim C7: when the photo file referenced by a record is absent from
the uploads directory, the guarded unlink step
(`if (fs.existsSync(p)) fs.unlinkSync(p)`) is a no-op rather than an
error, and the surrounding DELETE operation still succeeds with 200 in
both variants, leaving the directory exactly as it was. -/
theorem c7_missing_photo_file_noop
    (fs : List String) (p : String) (hp : p ∉ fs)
    (store : List (String × MealDoc)) (id : String) (meal : MealDoc)
    (hfind : Mongo.findById store id = some meal) (hphoto : meal.photo = some p)
    (doc : Document) (idStr : String) (i : Nat)
    (hidx : FlatFile.resolveIndex idStr doc.meals.length = some i)
    (hphoto2 : (doc.meals.getD i default).photo = some p) :
    guardedUnlink fs p = fs ∧
    Mongo.deleteMeal store fs id
      = (200, store.filter (fun pr => pr.fst != id), fs) ∧
    FlatFile.deleteMeal true (some doc) fs idStr
      = (200, some { doc with meals := doc.meals.eraseIdx i }, fs) := by
  have hg : guardedUnlink fs p = fs := by
    unfold guardedUnlink
    simp [hp]
  have hd : deleteOldPhoto fs (some p) = fs := by
    unfold deleteOldPhoto
    by_cases hpe : p = ""
    · simp [hpe]
    · simp [hpe, hg]
  refine ⟨hg, ?_, ?_⟩
  · unfold Mongo.deleteMeal
    rw [hfind]
    simp [hphoto, hd]
  · unfold FlatFile.deleteMeal
    rw [readData_some]
    simp only [hidx, hphoto2, writeData_true, hd]

/-- Claim C7, witness. -/
theorem c7_missing_photo_file_noop_witness :
    guardedUnlink [] "/uploads/a.jpg" = [] ∧
    Mongo.deleteMeal [("m1", fullMeal)] [] "m1"
      = (200,
         List.filter (fun pr => pr.fst != "m1") [("m1", fullMeal)], []) ∧
    FlatFile.deleteMeal true (some oneMealDoc) [] "0"
      = (200, some { oneMealDoc with meals := oneMealDoc.meals.eraseIdx 0 },
         []) :=
  c7_missing_photo_file_noop [] "/uploads/a.jpg" (by simp)
    [("m1", fullMeal)] "m1" fullMeal rfl rfl oneMealDoc "0" 0 rfl rfl

/-- Claim C10 counterexample: the claim says the flat-file PUT answers
404 for an unresolvable `:id` "without modifying the data file".  When
the backing file is unreadable or corrupt, the handler's initial
`readData` rewrites the file with the empty document before the 404 is
produced, so the data file is modified on this path. -/
theorem c10_counterexample_corrupt_file_rewritten :
    FlatFile.putMeal true none [] "abc" none soupBody
      = (404, some emptyDoc, []) ∧
    some emptyDoc ≠ (none : Option Document) := by
  exact ⟨rfl, by simp⟩

/-- Claim C10 amended: for every `:id` segment whose `parseInt` value is
`NaN` or outside `[0, meals.length)`, the flat-file PUT and DELETE
answer 404 with no asset file touched, and with the data file unchanged
provided the initial read succeeds; when the backing file is missing or
corrupt, `readData` first rewrites it with the empty document (the C9
repair) and the handlers then answer 404 for every `:id`, still touching
no asset file. -/
theorem c10_amended_unresolved_id_404
    (doc : Document) (fs : List String) (idStr : String) (body : MealDoc)
    (hidx : FlatFile.resolveIndex idStr doc.meals.length = none)
    (writeOk : Bool) :
    FlatFile.putMeal writeOk (some doc) fs idStr none body
      = (404, some doc, fs) ∧
    FlatFile.deleteMeal writeOk (some doc) fs idStr = (404, some doc, fs) ∧
    (∀ (fs2 : List String) (idStr2 : String) (body2 : MealDoc),
      FlatFile.putMeal true none fs2 idStr2 none body2
        = (404, some emptyDoc, fs2) ∧
      FlatFile.deleteMeal true none fs2 idStr2 = (404, some emptyDoc, fs2)) := by
  refine ⟨?_, ?_, fun fs2 idStr2 body2 => ⟨?_, ?_⟩⟩
  · unfold FlatFile.putMeal
    rw [multerSingle_none, readData_some]
    simp [hidx]
  · unfold FlatFile.deleteMeal
    rw [readData_some]
    simp [hidx]
  · unfold FlatFile.putMeal
    rw [multerSingle_none,
      show readData true none = (emptyDoc, some emptyDoc) from rfl]
    simp [show FlatFile.resolveIndex idStr2 emptyDoc.meals.length = none from
      FlatFile.resolveIndex_zero idStr2]
  · unfold FlatFile.deleteMeal
    rw [show readData true none = (emptyDoc, some emptyDoc) from rfl]
    simp [show FlatFile.resolveIndex idStr2 emptyDoc.meals.length = none from
      FlatFile.resolveIndex_zero idStr2]

/-- Claim C10 amended, witness. -/
theorem c10_amended_unresolved_id_404_witness :
    FlatFile.putMeal true (some oneMealDoc) [] "5" none soupBody
      = (404, some oneMealDoc, []) ∧
    FlatFile.deleteMeal true (some oneMealDoc) [] "5"
      = (404, some oneMealDoc, []) :=
  ⟨(c10_amended_unresolved_id_404 oneMealDoc [] "5" soupBody rfl true).1,
   (c10_amended_unresolved_id_404 oneMealDoc [] "5" soupBody rfl true).2.1⟩
